import Mathlib

/-!
Verification development for the remote-tool-call bridge of the
mcp-gemini-server repository (the `McpClientService` connection registry and
supervisor, its SSE and stdio transports, the request correlator, and the
`mcpCallServerTool` tool layer that calls into it).

The implementation of `McpClientService` itself is not part of the source
tree available here; only its unit-test file and its caller
(`mcpCallServerTool.ts`) are.  The service is therefore modelled from the
specification (spec sections 3-7), kept consistent with the observable
behaviour pinned down by the unit tests.  The tool-layer error mapping is
translated directly from the `processCallToolRequest` source.
-/

namespace McpBridge

/-- Minimal JSON value type standing for the structured payloads carried on
both transports (`JSON.parse` results, tool-call results). -/
inductive Json where
  | null
  | bool (b : Bool)
  | num (n : Int)
  | str (s : String)
  | arr (elems : List Json)
  | obj (fields : List (String × Json))

/-- Modelled from the spec: one live SSE (event-stream) connection record as
stored in `activeSseConnections` (the live `EventSource` handle itself is
represented by the record's presence in the registry). -/
structure SseConnection where
  baseUrl : String
  lastActivityTimestamp : Nat
deriving DecidableEq, Repr

/-- Modelled from the spec: one live stdio connection record as stored in
`activeStdioConnections` (the child-process handle is represented by the
record's presence in the registry). -/
structure StdioConnection where
  stdioCommand : String
  stdioArgs : List String
  lastActivityTimestamp : Nat
deriving DecidableEq, Repr

/-- Modelled from the spec: the Connection Registry owned by one
`McpClientService` instance.  The JS code keys two `Map`s by connection id;
we model each `Map` as an association list whose keys are unique (the
uniqueness is carried as a `Nodup` hypothesis where a theorem needs it,
since ids are freshly generated UUIDs, never reused). -/
structure ServiceState where
  activeSseConnections : List (String × SseConnection)
  activeStdioConnections : List (String × StdioConnection)
deriving DecidableEq, Repr

/-- Lookup in an association-list registry: the value bound to the first
occurrence of the key (a JS `Map.get`). -/
def lookupConn {κ α : Type} [DecidableEq κ] : List (κ × α) → κ → Option α
  | [], _ => none
  | (k, v) :: rest, id => if k = id then some v else lookupConn rest id

/-- Removal from an association-list registry (a JS `Map.delete`): drops
every binding of the key. -/
def eraseConn {κ α : Type} [DecidableEq κ] (l : List (κ × α)) (id : κ) : List (κ × α) :=
  l.filter (fun p => !(decide (p.1 = id)))

/-- Timestamp refresh (`connection.lastActivityTimestamp = Date.now()`)
applied to the binding of `id`, leaving every other binding alone. -/
def touchConn (l : List (String × SseConnection)) (id : String) (now : Nat) :
    List (String × SseConnection) :=
  l.map (fun p => if p.1 = id then (p.1, { p.2 with lastActivityTimestamp := now }) else p)

/-- Timestamp refresh for the stdio registry, as performed on every
outbound call issuance. -/
def touchStdioConn (l : List (String × StdioConnection)) (id : String) (now : Nat) :
    List (String × StdioConnection) :=
  l.map (fun p => if p.1 = id then (p.1, { p.2 with lastActivityTimestamp := now }) else p)

/-- Error taxonomy surfaced by the bridge (spec section 7). -/
inductive BridgeError where
  | invalidParameter (message : String)
  | connectionFailed (message : String)
  | connectionNotFound (message : String)
deriving DecidableEq, Repr

/-- Modelled from the spec: the caller-supplied connection details for
`connect`.  `other` stands for an object whose `type` field is neither
`"sse"` nor `"stdio"`; the caller passing `null` instead of an object is
modelled as `Option.none` at the `connect` call site. -/
inductive ConnectionDetails where
  | sse (sseUrl : String)
  | stdio (stdioCommand : String) (stdioArgs : List String)
  | other (typeName : String)
deriving DecidableEq, Repr

/-- Splits a character list at its first `"://"` separator, returning the
text before and after it, or `none` when no separator occurs. -/
def splitAtSchemeSep : List Char → Option (List Char × List Char)
  | [] => none
  | ':' :: '/' :: '/' :: rest => some ([], rest)
  | c :: rest => (splitAtSchemeSep rest).map (fun p => (c :: p.1, p.2))

/-- Modelled from the spec: syntactic URL validity (the `new URL(...)`
check): the text must split into a non-empty scheme and a non-empty
remainder around `"://"`. -/
def isValidUrl (s : String) : Bool :=
  match splitAtSchemeSep s.data with
  | some (scheme, rest) => !(scheme.isEmpty) && !(rest.isEmpty)
  | none => false

/-- Events delivered by the underlying `EventSource` to an SSE transport,
in arrival order. -/
inductive SseEvent where
  | openEvt
  | message (data : String)
  | errorEvt
deriving DecidableEq, Repr

/-- First establishment-relevant signal of an SSE event trace:
`some true` if the open confirmation arrives first, `some false` if a
transport error arrives first, `none` if neither ever arrives. -/
def firstSseSignal : List SseEvent → Option Bool
  | [] => none
  | SseEvent.openEvt :: _ => some true
  | SseEvent.errorEvt :: _ => some false
  | SseEvent.message _ :: rest => firstSseSignal rest

/-- Outcome of a `connect` call: a connection id, a classified error, or a
promise that never settles (the event trace contains neither an open
confirmation nor an error). -/
inductive ConnectOutcome where
  | ok (connectionId : String)
  | err (e : BridgeError)
  | pending
deriving DecidableEq, Repr

/-- Result of a `connect` call: its outcome, the registry afterwards, and
how many transport-level resources (an `EventSource` or a spawned child
process) were allocated during the call. -/
structure ConnectResult where
  outcome : ConnectOutcome
  state : ServiceState
  resourcesAllocated : Nat
deriving DecidableEq, Repr

/-- Modelled from the spec: the private `connectSse` path of the missing
`McpClientService`.  Constructs the `EventSource` (one resource), then
resolves with a fresh id and registers the connection if the open
confirmation arrives first, or rejects with `ConnectionFailed` leaving the
registry unchanged if a transport error arrives first. -/
def connectSse (st : ServiceState) (sseUrl : String) (freshId : String) (now : Nat)
    (events : List SseEvent) : ConnectResult :=
  match firstSseSignal events with
  | some true =>
    { outcome := ConnectOutcome.ok freshId
      state := { st with
        activeSseConnections :=
          (freshId, { baseUrl := sseUrl, lastActivityTimestamp := now })
            :: st.activeSseConnections }
      resourcesAllocated := 1 }
  | some false =>
    { outcome := ConnectOutcome.err
        (BridgeError.connectionFailed ("Failed to establish SSE connection to " ++ sseUrl))
      state := st
      resourcesAllocated := 1 }
  | none =>
    { outcome := ConnectOutcome.pending, state := st, resourcesAllocated := 1 }

/-- Modelled from the spec: the private `connectStdio` path of the missing
`McpClientService`.  Spawns the child process (one resource), registers the
connection under a fresh id and resolves with it. -/
def connectStdio (st : ServiceState) (stdioCommand : String) (stdioArgs : List String)
    (freshId : String) (now : Nat) : ConnectResult :=
  { outcome := ConnectOutcome.ok freshId
    state := { st with
      activeStdioConnections :=
        (freshId, { stdioCommand := stdioCommand, stdioArgs := stdioArgs,
                    lastActivityTimestamp := now })
          :: st.activeStdioConnections }
    resourcesAllocated := 1 }

/-- Modelled from the spec: `McpClientService.connect(serverId, details)` of
the missing service source.  Validation runs synchronously, in the order the
unit tests pin down (server id, then the details object, then the transport
type, then the transport-specific parameters), before any transport resource
is allocated; only then is the matching transport constructed. -/
def connect (st : ServiceState) (serverId : String) (details : Option ConnectionDetails)
    (freshId : String) (now : Nat) (events : List SseEvent) : ConnectResult :=
  if serverId = "" then
    { outcome := ConnectOutcome.err
        (BridgeError.invalidParameter "Server ID must be a non-empty string")
      state := st, resourcesAllocated := 0 }
  else
    match details with
    | none =>
      { outcome := ConnectOutcome.err
          (BridgeError.invalidParameter "Connection details must be an object")
        state := st, resourcesAllocated := 0 }
    | some (ConnectionDetails.other _) =>
      { outcome := ConnectOutcome.err
          (BridgeError.invalidParameter "Connection type must be 'sse' or 'stdio'")
        state := st, resourcesAllocated := 0 }
    | some (ConnectionDetails.sse sseUrl) =>
      if sseUrl = "" then
        { outcome := ConnectOutcome.err
            (BridgeError.invalidParameter "sseUrl must be a non-empty string")
          state := st, resourcesAllocated := 0 }
      else if !(isValidUrl sseUrl) then
        { outcome := ConnectOutcome.err
            (BridgeError.invalidParameter "sseUrl must be a valid URL format")
          state := st, resourcesAllocated := 0 }
      else
        connectSse st sseUrl freshId now events
    | some (ConnectionDetails.stdio stdioCommand stdioArgs) =>
      if stdioCommand = "" then
        { outcome := ConnectOutcome.err
            (BridgeError.invalidParameter "stdioCommand must be a non-empty string")
          state := st, resourcesAllocated := 0 }
      else
        connectStdio st stdioCommand stdioArgs freshId now

/-- What an SSE message handler receives for one inbound message: either the
parsed structured value or, when parsing fails, the raw message text. -/
inductive Delivery where
  | parsed (j : Json)
  | raw (text : String)

/-- Effect of one post-establishment SSE event on the service: the registry
afterwards, what (if anything) was passed to the registered `onMessage`
handler, and whether this step closed the underlying `EventSource`. -/
structure SseStepResult where
  state : ServiceState
  delivered : Option Delivery
  closedTransport : Bool

/-- Modelled from the spec: the `onmessage` / `onerror` handlers the missing
`McpClientService.connectSse` installs on an established connection.  A
message is parsed when possible and otherwise delivered raw (never dropped,
never raising), and refreshes the connection's activity timestamp; an error
closes the `EventSource` and discards the registration, attempting no
reconnection.  `parse` abstracts the `JSON.parse`-with-catch step. -/
def handleSseEvent (parse : String → Option Json) (st : ServiceState) (id : String)
    (now : Nat) : SseEvent → SseStepResult
  | SseEvent.message data =>
    let payload :=
      match parse data with
      | some j => Delivery.parsed j
      | none => Delivery.raw data
    { state := { st with activeSseConnections := touchConn st.activeSseConnections id now }
      delivered := some payload
      closedTransport := false }
  | SseEvent.errorEvt =>
    { state := { st with activeSseConnections := eraseConn st.activeSseConnections id }
      delivered := none
      closedTransport := true }
  | SseEvent.openEvt =>
    { state := st, delivered := none, closedTransport := false }

/-- Stale-connection threshold: 10 minutes in milliseconds (spec section 6,
and the unit tests' `600000 + 1000` stale timestamps). -/
def CONNECTION_STALE_THRESHOLD : Nat := 600000

/-- A connection is stale when its last activity lies strictly more than the
threshold before the current clock value. -/
def isStale (now ts : Nat) : Bool := decide (ts + CONNECTION_STALE_THRESHOLD < now)

/-- Result of one stale sweep: the registry afterwards plus the ids whose
transports were closed by the sweep, per kind. -/
structure CleanupResult where
  state : ServiceState
  closedSse : List String
  closedStdio : List String

/-- Modelled from the spec: the missing `McpClientService`'s periodic
`cleanupStaleConnections` sweep.  Every registered connection whose
`lastActivityTimestamp` is older than the threshold has its transport closed
and its registration removed; fresh connections are untouched. -/
def cleanupStaleConnections (st : ServiceState) (now : Nat) : CleanupResult :=
  { state :=
      { activeSseConnections :=
          st.activeSseConnections.filter
            (fun p => !(isStale now p.2.lastActivityTimestamp))
        activeStdioConnections :=
          st.activeStdioConnections.filter
            (fun p => !(isStale now p.2.lastActivityTimestamp)) }
    closedSse :=
      (st.activeSseConnections.filter
        (fun p => isStale now p.2.lastActivityTimestamp)).map Prod.fst
    closedStdio :=
      (st.activeStdioConnections.filter
        (fun p => isStale now p.2.lastActivityTimestamp)).map Prod.fst }

/-- Result of a `disconnect` call: the reported outcome (the JS method
returns `true` on success and throws `ConnectionNotFound` otherwise), the
registry afterwards, and whether a transport was closed. -/
structure DisconnectResult where
  outcome : Except BridgeError Bool
  state : ServiceState
  closedTransport : Bool

/-- Modelled from the spec: the missing `McpClientService.disconnect`.
Looks the id up (SSE registry first, then stdio), closes the matching
transport and removes the registration, returning `true`; an unknown id is
reported as `ConnectionNotFound` with the registry left unchanged. -/
def disconnect (st : ServiceState) (id : String) : DisconnectResult :=
  match lookupConn st.activeSseConnections id with
  | some _ =>
    { outcome := Except.ok true
      state := { st with activeSseConnections := eraseConn st.activeSseConnections id }
      closedTransport := true }
  | none =>
    match lookupConn st.activeStdioConnections id with
    | some _ =>
      { outcome := Except.ok true
        state := { st with activeStdioConnections := eraseConn st.activeStdioConnections id }
        closedTransport := true }
    | none =>
      { outcome := Except.error
          (BridgeError.connectionNotFound ("Connection not found: " ++ id))
        state := st
        closedTransport := false }

/-- A decoded frame arriving on a stdio connection's stdout: a response
carrying a correlation id, or a notification carrying none (spec section 6
wire format). -/
inductive DecodedFrame (β : Type) where
  | response (id : Nat) (payload : β)
  | notification (payload : β)

/-- Modelled from the spec: the Request Correlator's pending-request map for
one stdio connection.  Registering a call adds a fresh unfulfilled slot for
its request id. -/
def registerPending {β : Type} (pending : List (Nat × Option β)) (requestId : Nat) :
    List (Nat × Option β) :=
  (requestId, none) :: pending

/-- Modelled from the spec: the Request Correlator's `resolve`.  The slot
whose id matches the response's correlation id is fulfilled with the
payload; every other slot — and every already-fulfilled slot — is left
untouched, so unknown or duplicate responses are discarded. -/
def fulfillPending {β : Type} (pending : List (Nat × Option β)) (respId : Nat)
    (payload : β) : List (Nat × Option β) :=
  pending.map (fun p =>
    match p with
    | (i, none) => if i = respId then (i, some payload) else (i, none)
    | (i, some v) => (i, some v))

/-- Modelled from the spec: the stdio transport's inbound routing of one
decoded frame — a response is handed to the correlator keyed by its id, a
notification leaves the pending map alone. -/
def routeFrame {β : Type} (pending : List (Nat × Option β)) :
    DecodedFrame β → List (Nat × Option β)
  | DecodedFrame.response i payload => fulfillPending pending i payload
  | DecodedFrame.notification _ => pending

/-- Inbound frames processed in arrival order over the pending map. -/
def processFrames {β : Type} (pending : List (Nat × Option β))
    (frames : List (DecodedFrame β)) : List (Nat × Option β) :=
  frames.foldl routeFrame pending

/-- Error codes of the MCP SDK's `McpError` relevant to the tool layer. -/
inductive ErrorCode where
  | invalidParams
  | internalError
deriving DecidableEq, Repr

/-- An `McpError` as rethrown by the tool layer. -/
structure ToolLayerError where
  code : ErrorCode
  message : String
deriving DecidableEq, Repr

/-- A failure escaping `McpClientService.callTool`: either already an
`McpError` or a plain JS `Error` with a message. -/
inductive ServiceFailure where
  | mcp (code : ErrorCode) (message : String)
  | plain (message : String)
deriving DecidableEq, Repr

/-- Character-list prefix test (structural, so proofs can unfold it). -/
def isPrefixOfChars : List Char → List Char → Bool
  | [], _ => true
  | _ :: _, [] => false
  | a :: as, b :: bs => decide (a = b) && isPrefixOfChars as bs

/-- Substring occurrence over character lists: the pattern is a prefix of
some suffix of the text. -/
def containsSub (pat : List Char) : List Char → Bool
  | [] => isPrefixOfChars pat []
  | b :: bs => isPrefixOfChars pat (b :: bs) || containsSub pat bs

/-- JavaScript's `String.prototype.includes`, as used by the tool layer's
error classification. -/
def stringIncludes (s pat : String) : Bool := containsSub pat.data s.data

/-- Result of `McpClientService.callTool`: its outcome, how many
transport-level calls were issued (zero when the lookup already failed),
and the registry afterwards (the looked-up connection's activity timestamp
is refreshed on issuance). -/
structure CallToolResult where
  outcome : Except ServiceFailure Json
  transportCalls : Nat
  state : ServiceState

/-- Modelled from the spec: the missing `McpClientService.callTool`
(`invoke`).  The connection id is looked up in both registries; if absent,
the call fails with a plain `Error` whose message names the id
(`No connection found for ID: ...`), no transport call is made and the
registry is untouched; otherwise the connection's activity timestamp is
refreshed to the issuance instant (spec 4.5: updated on issuance) and the
call is delegated to the transport (whose result value is irrelevant to
the claims settled here and abstracted as `Json.null`). -/
def callTool (st : ServiceState) (connectionId : String) (now : Nat) : CallToolResult :=
  match lookupConn st.activeSseConnections connectionId with
  | some _ =>
    { outcome := Except.ok Json.null
      transportCalls := 1
      state := { st with
        activeSseConnections := touchConn st.activeSseConnections connectionId now } }
  | none =>
    match lookupConn st.activeStdioConnections connectionId with
    | some _ =>
      { outcome := Except.ok Json.null
        transportCalls := 1
        state := { st with
          activeStdioConnections :=
            touchStdioConn st.activeStdioConnections connectionId now } }
    | none =>
      { outcome := Except.error
          (ServiceFailure.plain ("No connection found for ID: " ++ connectionId))
        transportCalls := 0
        state := st }

/-- Translated from `mcpCallServerTool.ts` (`processCallToolRequest`'s catch
block): an `McpError` is rethrown with its own code and message (with tool
context attached); a plain error whose message includes
`"No connection found"` becomes `InvalidParams` naming the connection id;
then `"HTTP error"` and `"timeout"` map to `InternalError` variants; any
other failure maps to the generic `InternalError`. -/
def mapCallToolError (toolName connectionId : String) : ServiceFailure → ToolLayerError
  | ServiceFailure.mcp code message => { code := code, message := message }
  | ServiceFailure.plain message =>
    if stringIncludes message "No connection found" then
      { code := ErrorCode.invalidParams
        message := "Invalid connection ID: " ++ connectionId }
    else if stringIncludes message "HTTP error" then
      { code := ErrorCode.internalError
        message := "Network error while calling tool " ++ toolName ++ ": " ++ message }
    else if stringIncludes message "timeout" then
      { code := ErrorCode.internalError
        message := "Timeout while calling tool " ++ toolName ++ ": " ++ message }
    else
      { code := ErrorCode.internalError
        message := "Failed to call remote tool " ++ toolName ++ ": " ++ message }

/-! ### Registry lemmas -/

/-- After erasing a key, looking it up yields nothing. -/
theorem lookupConn_eraseConn_self {κ α : Type} [DecidableEq κ] (l : List (κ × α)) (id : κ) :
    lookupConn (eraseConn l id) id = none := by
  induction l with
  | nil => rfl
  | cons p rest ih =>
    obtain ⟨k, w⟩ := p
    by_cases hk : k = id
    · simpa [eraseConn, List.filter_cons, hk] using ih
    · simpa [eraseConn, List.filter_cons, hk, lookupConn] using ih

/-- A successful lookup exhibits a binding in the list. -/
theorem mem_of_lookupConn {κ α : Type} [DecidableEq κ] (l : List (κ × α)) (id : κ) (v : α) :
    lookupConn l id = some v → (id, v) ∈ l := by
  induction l with
  | nil => intro h; simp [lookupConn] at h
  | cons p rest ih =>
    obtain ⟨k, w⟩ := p
    intro h
    by_cases hk : k = id
    · simp [lookupConn, hk] at h
      simp [hk, h]
    · simp [lookupConn, hk] at h
      exact List.mem_cons_of_mem _ (ih h)

/-- A lookup fails exactly when the key is absent from the key list. -/
theorem lookupConn_eq_none_iff {κ α : Type} [DecidableEq κ] (l : List (κ × α)) (id : κ) :
    lookupConn l id = none ↔ id ∉ l.map Prod.fst := by
  induction l with
  | nil => simp [lookupConn]
  | cons p rest ih =>
    obtain ⟨k, w⟩ := p
    by_cases hk : k = id
    · simp [lookupConn, hk]
    · rw [lookupConn, if_neg hk, ih, List.map_cons]
      simp [List.mem_cons, show ¬ id = k from fun h => hk h.symm]

/-- With unique keys, a binding in the list is what lookup returns. -/
theorem lookupConn_of_mem_nodup {κ α : Type} [DecidableEq κ] (l : List (κ × α)) (id : κ)
    (v : α) :
    (l.map Prod.fst).Nodup → (id, v) ∈ l → lookupConn l id = some v := by
  induction l with
  | nil => intro _ hmem; simp at hmem
  | cons p rest ih =>
    obtain ⟨k, w⟩ := p
    intro hnd hmem
    simp only [List.map_cons, List.nodup_cons] at hnd
    rcases List.mem_cons.mp hmem with heq | hmem'
    · cases heq
      simp [lookupConn]
    · by_cases hk : k = id
      · exact absurd (by rw [hk]; exact List.mem_map.mpr ⟨(id, v), hmem', rfl⟩) hnd.1
      · rw [lookupConn, if_neg hk]
        exact ih hnd.2 hmem'

/-- The keys of a filtered association list are among the original keys. -/
theorem keys_filter_subset {κ α : Type} (l : List (κ × α)) (f : κ × α → Bool) (id : κ)
    (h : id ∈ (l.filter f).map Prod.fst) : id ∈ l.map Prod.fst := by
  rcases List.mem_map.mp h with ⟨p, hp, rfl⟩
  exact List.mem_map.mpr ⟨p, (List.mem_filter.mp hp).1, rfl⟩

/-- With unique keys, lookup commutes with filtering: the filtered list
still binds the key exactly when the original binding passes the filter. -/
theorem lookupConn_filter {κ α : Type} [DecidableEq κ] (l : List (κ × α)) (f : κ × α → Bool)
    (id : κ) :
    (l.map Prod.fst).Nodup →
    lookupConn (l.filter f) id =
      (match lookupConn l id with
       | some v => if f (id, v) then some v else none
       | none => none) := by
  induction l with
  | nil => intro _; rfl
  | cons p rest ih =>
    obtain ⟨k, w⟩ := p
    intro hnd
    simp only [List.map_cons, List.nodup_cons] at hnd
    by_cases hk : k = id
    · subst hk
      by_cases hf : f (k, w)
      · simp [List.filter_cons, hf, lookupConn]
      · simp only [List.filter_cons, hf, Bool.false_eq_true, if_false, lookupConn, if_pos rfl]
        rw [(lookupConn_eq_none_iff _ _).mpr (fun hin => hnd.1 (keys_filter_subset _ _ _ hin))]
        simp [hf]
    · have htail : lookupConn (List.filter f ((k, w) :: rest)) id
          = lookupConn (List.filter f rest) id := by
        rw [List.filter_cons]
        by_cases hf : f (k, w)
        · simp [hf, lookupConn, hk]
        · simp [hf]
      rw [htail, ih hnd.2, lookupConn, if_neg hk]

/-- Refreshing the timestamp of a key rewrites exactly that key's binding. -/
theorem lookupConn_touchConn (l : List (String × SseConnection)) (id : String) (now : Nat) :
    lookupConn (touchConn l id now) id =
      (lookupConn l id).map (fun c => { c with lastActivityTimestamp := now }) := by
  induction l with
  | nil => rfl
  | cons p rest ih =>
    obtain ⟨k, w⟩ := p
    by_cases hk : k = id
    · subst hk
      have hstep : touchConn ((k, w) :: rest) k now
          = (k, { w with lastActivityTimestamp := now }) :: touchConn rest k now := by
        simp [touchConn]
      rw [hstep]
      simp [lookupConn]
    · have hstep : touchConn ((k, w) :: rest) id now = (k, w) :: touchConn rest id now := by
        simp [touchConn, hk]
      rw [hstep, lookupConn, if_neg hk, ih, lookupConn, if_neg hk]

/-- Refreshing the timestamp of a key in the stdio registry rewrites
exactly that key's binding. -/
theorem lookupConn_touchStdioConn (l : List (String × StdioConnection)) (id : String)
    (now : Nat) :
    lookupConn (touchStdioConn l id now) id =
      (lookupConn l id).map (fun c => { c with lastActivityTimestamp := now }) := by
  induction l with
  | nil => rfl
  | cons p rest ih =>
    obtain ⟨k, w⟩ := p
    by_cases hk : k = id
    · subst hk
      have hstep : touchStdioConn ((k, w) :: rest) k now
          = (k, { w with lastActivityTimestamp := now }) :: touchStdioConn rest k now := by
        simp [touchStdioConn]
      rw [hstep]
      simp [lookupConn]
    · have hstep : touchStdioConn ((k, w) :: rest) id now
          = (k, w) :: touchStdioConn rest id now := by
        simp [touchStdioConn, hk]
      rw [hstep, lookupConn, if_neg hk, ih, lookupConn, if_neg hk]

/-! ### Substring lemmas -/

/-- A list is a prefix of itself followed by anything. -/
theorem isPrefixOfChars_append (pat rest : List Char) :
    isPrefixOfChars pat (pat ++ rest) = true := by
  induction pat with
  | nil => rfl
  | cons a as ih => simp [isPrefixOfChars, ih]

/-- A text beginning with the pattern contains the pattern. -/
theorem containsSub_of_prefix (pat suffix : List Char) :
    containsSub pat (pat ++ suffix) = true := by
  cases pat with
  | nil =>
    cases suffix with
    | nil => rfl
    | cons b bs => simp [containsSub, isPrefixOfChars]
  | cons a as =>
    have h := isPrefixOfChars_append (a :: as) suffix
    simp only [List.cons_append] at h
    simp [containsSub, h]

/-- The not-found message produced by `callTool` always contains the
`"No connection found"` discriminant the tool layer matches on. -/
theorem stringIncludes_noConnectionFound (id : String) :
    stringIncludes ("No connection found for ID: " ++ id) "No connection found" = true := by
  show containsSub ("No connection found".data) (("No connection found for ID: " ++ id).data)
    = true
  rw [String.data_append]
  have h3 : "No connection found for ID: ".data
      = "No connection found".data ++ " for ID: ".data := by decide
  rw [h3, List.append_assoc]
  exact containsSub_of_prefix _ _

/-! ### Claim theorems -/

/-- Claim C1: a `connect` call whose connection type is unrecognized, whose
stdio command is empty, or whose SSE URL is not syntactically valid fails
with an `InvalidParameter` error, synchronously: no transport resource is
allocated and the registry is unchanged. -/
theorem connect_invalidParameter_sync
    (st : ServiceState) (serverId freshId : String) (now : Nat)
    (details : Option ConnectionDetails) (events : List SseEvent)
    (hbad : (∃ t, details = some (ConnectionDetails.other t)) ∨
            (∃ args, details = some (ConnectionDetails.stdio "" args)) ∨
            (∃ u, details = some (ConnectionDetails.sse u) ∧ isValidUrl u = false)) :
    ∃ msg, connect st serverId details freshId now events =
      { outcome := ConnectOutcome.err (BridgeError.invalidParameter msg)
        state := st
        resourcesAllocated := 0 } := by
  by_cases hs : serverId = ""
  · exact ⟨"Server ID must be a non-empty string", by simp [connect, hs]⟩
  · rcases hbad with ⟨t, rfl⟩ | ⟨args, rfl⟩ | ⟨u, rfl, hvalid⟩
    · exact ⟨"Connection type must be \x27sse\x27 or \x27stdio\x27",
        by simp [connect, hs]⟩
    · exact ⟨"stdioCommand must be a non-empty string", by simp [connect, hs]⟩
    · by_cases hu : u = ""
      · exact ⟨"sseUrl must be a non-empty string", by simp [connect, hs, hu]⟩
      · exact ⟨"sseUrl must be a valid URL format", by simp [connect, hs, hu, hvalid]⟩

/-- Witness for C1 at a concrete unrecognized connection type. -/
theorem connect_invalidParameter_sync_check :
    ∃ msg,
      connect { activeSseConnections := [], activeStdioConnections := [] } "server1"
          (some (ConnectionDetails.other "invalid")) "test-uuid-value" 0 []
        = { outcome := ConnectOutcome.err (BridgeError.invalidParameter msg)
            state := { activeSseConnections := [], activeStdioConnections := [] }
            resourcesAllocated := 0 } :=
  connect_invalidParameter_sync _ _ _ _ _ _ (Or.inl ⟨"invalid", rfl⟩)

/-- Claim C10: `connect` validates its caller-supplied server id first: for
an empty server id it rejects with an invalid-parameter error stating the
server ID must be a non-empty string, before the transport kind is examined
and before any resource is allocated, whatever the other arguments are. -/
theorem connect_rejects_empty_serverId
    (st : ServiceState) (details : Option ConnectionDetails) (freshId : String)
    (now : Nat) (events : List SseEvent) :
    connect st "" details freshId now events =
      { outcome := ConnectOutcome.err
          (BridgeError.invalidParameter "Server ID must be a non-empty string")
        state := st
        resourcesAllocated := 0 } := by
  simp [connect]

/-- Claim C4: an SSE `connect` attempt whose transport signals an error
before the open confirmation rejects with `ConnectionFailed`, and the
registry is exactly what it was (so its size is unchanged and no connection
is registered for the failed attempt). -/
theorem connect_sse_error_before_open_rejects
    (st : ServiceState) (serverId sseUrl freshId : String) (now : Nat)
    (events : List SseEvent)
    (hsid : serverId ≠ "") (hurl : isValidUrl sseUrl = true)
    (herr : firstSseSignal events = some false) :
    connect st serverId (some (ConnectionDetails.sse sseUrl)) freshId now events =
      { outcome := ConnectOutcome.err
          (BridgeError.connectionFailed
            ("Failed to establish SSE connection to " ++ sseUrl))
        state := st
        resourcesAllocated := 1 } := by
  have hne : sseUrl ≠ "" := by
    intro h
    rw [h] at hurl
    exact absurd hurl (by decide)
  simp [connect, hsid, hne, hurl, connectSse, herr]

/-- Witness for C4: the spec scenario `connect("event-stream",
{url: "http://x/sse"})` with a simulated error before open. -/
theorem connect_sse_error_before_open_rejects_check :
    connect { activeSseConnections := [], activeStdioConnections := [] } "server1"
        (some (ConnectionDetails.sse "http://x/sse")) "test-uuid-value" 0
        [SseEvent.errorEvt]
      = { outcome := ConnectOutcome.err
            (BridgeError.connectionFailed
              ("Failed to establish SSE connection to " ++ "http://x/sse"))
          state := { activeSseConnections := [], activeStdioConnections := [] }
          resourcesAllocated := 1 } :=
  connect_sse_error_before_open_rejects _ _ _ _ _ _ (by decide) (by decide) rfl

/-- Sweep skeleton: filtering a unique-keyed registry by freshness removes
exactly the stale bindings and reports exactly the stale keys. -/
theorem filter_sweep_spec {κ α : Type} [DecidableEq κ] (l : List (κ × α)) (stale : α → Bool)
    (hnd : (l.map Prod.fst).Nodup) (id : κ) (c : α)
    (hlook : lookupConn l id = some c) :
    (stale c = true →
      lookupConn (l.filter (fun p => !(stale p.2))) id = none ∧
      id ∈ (l.filter (fun p => stale p.2)).map Prod.fst) ∧
    (stale c = false →
      lookupConn (l.filter (fun p => !(stale p.2))) id = some c ∧
      id ∉ (l.filter (fun p => stale p.2)).map Prod.fst) := by
  constructor
  · intro hstale
    refine ⟨?_, ?_⟩
    · rw [lookupConn_filter _ _ _ hnd, hlook]
      simp [hstale]
    · exact List.mem_map.mpr ⟨(id, c),
        List.mem_filter.mpr ⟨mem_of_lookupConn _ _ _ hlook, hstale⟩, rfl⟩
  · intro hfresh
    refine ⟨?_, ?_⟩
    · rw [lookupConn_filter _ _ _ hnd, hlook]
      simp [hfresh]
    · intro hin
      rcases List.mem_map.mp hin with ⟨p, hp, hfst⟩
      rcases List.mem_filter.mp hp with ⟨hpl, hpstale⟩
      have hl2 : lookupConn l id = some p.2 := by
        apply lookupConn_of_mem_nodup _ _ _ hnd
        rw [← hfst]
        exact hpl
      rw [hlook] at hl2
      have heq : c = p.2 := Option.some.inj hl2
      rw [← heq] at hpstale
      rw [hfresh] at hpstale
      exact Bool.false_ne_true hpstale

/-- Claim C2: the stale sweep closes and removes exactly the registered
connections (of both kinds) whose `lastActivityTimestamp` is older than the
threshold; connections active within the threshold stay registered,
untouched, and their transports are not closed. -/
theorem cleanupStaleConnections_evicts_exactly_stale
    (st : ServiceState) (now : Nat)
    (hndSse : (st.activeSseConnections.map Prod.fst).Nodup)
    (hndStdio : (st.activeStdioConnections.map Prod.fst).Nodup) :
    (∀ id c, lookupConn st.activeSseConnections id = some c →
      (isStale now c.lastActivityTimestamp = true →
        lookupConn (cleanupStaleConnections st now).state.activeSseConnections id = none ∧
        id ∈ (cleanupStaleConnections st now).closedSse) ∧
      (isStale now c.lastActivityTimestamp = false →
        lookupConn (cleanupStaleConnections st now).state.activeSseConnections id = some c ∧
        id ∉ (cleanupStaleConnections st now).closedSse)) ∧
    (∀ id c, lookupConn st.activeStdioConnections id = some c →
      (isStale now c.lastActivityTimestamp = true →
        lookupConn (cleanupStaleConnections st now).state.activeStdioConnections id = none ∧
        id ∈ (cleanupStaleConnections st now).closedStdio) ∧
      (isStale now c.lastActivityTimestamp = false →
        lookupConn (cleanupStaleConnections st now).state.activeStdioConnections id = some c ∧
        id ∉ (cleanupStaleConnections st now).closedStdio)) := by
  refine ⟨fun id c hlook => ?_, fun id c hlook => ?_⟩
  · exact filter_sweep_spec st.activeSseConnections
      (fun a => isStale now a.lastActivityTimestamp) hndSse id c hlook
  · exact filter_sweep_spec st.activeStdioConnections
      (fun a => isStale now a.lastActivityTimestamp) hndStdio id c hlook

/-- Witness for C2: at clock 700000 a connection last active at 0 (stale by
the 10-minute threshold) is evicted and closed, while one last active at
650000 stays registered. -/
theorem cleanupStaleConnections_evicts_exactly_stale_check :
    (lookupConn (cleanupStaleConnections
        { activeSseConnections :=
            [("stale-conn", { baseUrl := "http://x/sse", lastActivityTimestamp := 0 }),
             ("fresh-conn", { baseUrl := "http://y/sse", lastActivityTimestamp := 650000 })]
          activeStdioConnections := [] } 700000).state.activeSseConnections "stale-conn"
      = none) ∧
    "stale-conn" ∈ (cleanupStaleConnections
        { activeSseConnections :=
            [("stale-conn", { baseUrl := "http://x/sse", lastActivityTimestamp := 0 }),
             ("fresh-conn", { baseUrl := "http://y/sse", lastActivityTimestamp := 650000 })]
          activeStdioConnections := [] } 700000).closedSse ∧
    (lookupConn (cleanupStaleConnections
        { activeSseConnections :=
            [("stale-conn", { baseUrl := "http://x/sse", lastActivityTimestamp := 0 }),
             ("fresh-conn", { baseUrl := "http://y/sse", lastActivityTimestamp := 650000 })]
          activeStdioConnections := [] } 700000).state.activeSseConnections "fresh-conn"
      = some { baseUrl := "http://y/sse", lastActivityTimestamp := 650000 }) ∧
    "fresh-conn" ∉ (cleanupStaleConnections
        { activeSseConnections :=
            [("stale-conn", { baseUrl := "http://x/sse", lastActivityTimestamp := 0 }),
             ("fresh-conn", { baseUrl := "http://y/sse", lastActivityTimestamp := 650000 })]
          activeStdioConnections := [] } 700000).closedSse := by
  have h := cleanupStaleConnections_evicts_exactly_stale
    { activeSseConnections :=
        [("stale-conn", { baseUrl := "http://x/sse", lastActivityTimestamp := 0 }),
         ("fresh-conn", { baseUrl := "http://y/sse", lastActivityTimestamp := 650000 })]
      activeStdioConnections := [] } 700000 (by decide) (by decide)
  have hs := h.1 "stale-conn" { baseUrl := "http://x/sse", lastActivityTimestamp := 0 }
    (by decide)
  have hf := h.1 "fresh-conn" { baseUrl := "http://y/sse", lastActivityTimestamp := 650000 }
    (by decide)
  exact ⟨(hs.1 (by decide)).1, (hs.1 (by decide)).2,
         (hf.2 (by decide)).1, (hf.2 (by decide)).2⟩

/-- Claim C3: for a registered id (of either kind, never of both, since ids
are never shared across kinds) the first `disconnect` succeeds, closes the
transport and removes the registration; a second `disconnect` on the same
id, and a `disconnect` on a never-registered id, fail with
`ConnectionNotFound` and leave the registry unchanged. -/
theorem disconnect_once_then_connectionNotFound
    (st : ServiceState) (id : String)
    (hreg : lookupConn st.activeSseConnections id ≠ none ∨
            lookupConn st.activeStdioConnections id ≠ none)
    (hone : lookupConn st.activeSseConnections id = none ∨
            lookupConn st.activeStdioConnections id = none) :
    (disconnect st id).outcome = Except.ok true ∧
    (disconnect st id).closedTransport = true ∧
    lookupConn (disconnect st id).state.activeSseConnections id = none ∧
    lookupConn (disconnect st id).state.activeStdioConnections id = none ∧
    disconnect (disconnect st id).state id =
      { outcome := Except.error
          (BridgeError.connectionNotFound ("Connection not found: " ++ id))
        state := (disconnect st id).state
        closedTransport := false } ∧
    (∀ uid, lookupConn st.activeSseConnections uid = none →
      lookupConn st.activeStdioConnections uid = none →
      disconnect st uid =
        { outcome := Except.error
            (BridgeError.connectionNotFound ("Connection not found: " ++ uid))
          state := st
          closedTransport := false }) := by
  have hunknown : ∀ uid, lookupConn st.activeSseConnections uid = none →
      lookupConn st.activeStdioConnections uid = none →
      disconnect st uid =
        { outcome := Except.error
            (BridgeError.connectionNotFound ("Connection not found: " ++ uid))
          state := st
          closedTransport := false } := by
    intro uid h1 h2
    simp [disconnect, h1, h2]
  rcases hreg with hsse | hstdio
  · obtain ⟨c, hc⟩ := Option.ne_none_iff_exists'.mp hsse
    have hstdioNone : lookupConn st.activeStdioConnections id = none := by
      rcases hone with h | h
      · exact absurd h hsse
      · exact h
    have hd : disconnect st id =
        { outcome := Except.ok true
          state := { st with activeSseConnections := eraseConn st.activeSseConnections id }
          closedTransport := true } := by
      simp [disconnect, hc]
    refine ⟨by rw [hd], by rw [hd], ?_, ?_, ?_, hunknown⟩
    · rw [hd]
      exact lookupConn_eraseConn_self _ _
    · rw [hd]
      exact hstdioNone
    · rw [hd]
      simp [disconnect, lookupConn_eraseConn_self, hstdioNone]
  · obtain ⟨c, hc⟩ := Option.ne_none_iff_exists'.mp hstdio
    have hsseNone : lookupConn st.activeSseConnections id = none := by
      rcases hone with h | h
      · exact h
      · exact absurd h hstdio
    have hd : disconnect st id =
        { outcome := Except.ok true
          state :=
            { st with activeStdioConnections := eraseConn st.activeStdioConnections id }
          closedTransport := true } := by
      simp [disconnect, hsseNone, hc]
    refine ⟨by rw [hd], by rw [hd], ?_, ?_, ?_, hunknown⟩
    · rw [hd]
      exact hsseNone
    · rw [hd]
      exact lookupConn_eraseConn_self _ _
    · rw [hd]
      simp [disconnect, lookupConn_eraseConn_self, hsseNone]

/-- Witness for C3: disconnecting a registered SSE connection succeeds once,
then reports `ConnectionNotFound`; a never-registered id reports
`ConnectionNotFound` directly. -/
theorem disconnect_once_then_connectionNotFound_check :
    (disconnect
        { activeSseConnections :=
            [("test-uuid-value", { baseUrl := "http://x/sse", lastActivityTimestamp := 100 })]
          activeStdioConnections := [] } "test-uuid-value").outcome = Except.ok true ∧
    disconnect (disconnect
        { activeSseConnections :=
            [("test-uuid-value", { baseUrl := "http://x/sse", lastActivityTimestamp := 100 })]
          activeStdioConnections := [] } "test-uuid-value").state "test-uuid-value" =
      { outcome := Except.error
          (BridgeError.connectionNotFound ("Connection not found: " ++ "test-uuid-value"))
        state := (disconnect
          { activeSseConnections :=
              [("test-uuid-value",
                { baseUrl := "http://x/sse", lastActivityTimestamp := 100 })]
            activeStdioConnections := [] } "test-uuid-value").state
        closedTransport := false } ∧
    disconnect
        { activeSseConnections :=
            [("test-uuid-value", { baseUrl := "http://x/sse", lastActivityTimestamp := 100 })]
          activeStdioConnections := [] } "non-existent-server" =
      { outcome := Except.error
          (BridgeError.connectionNotFound ("Connection not found: " ++ "non-existent-server"))
        state :=
          { activeSseConnections :=
              [("test-uuid-value", { baseUrl := "http://x/sse", lastActivityTimestamp := 100 })]
            activeStdioConnections := [] }
        closedTransport := false } := by
  have h := disconnect_once_then_connectionNotFound
    { activeSseConnections :=
        [("test-uuid-value", { baseUrl := "http://x/sse", lastActivityTimestamp := 100 })]
      activeStdioConnections := [] } "test-uuid-value"
    (Or.inl (by decide)) (Or.inr (by decide))
  exact ⟨h.1, h.2.2.2.2.1, h.2.2.2.2.2 "non-existent-server" (by decide) (by decide)⟩

/-- Claim C5: a transport error on an established SSE connection closes the
`EventSource`, removes the connection from the registry (its resulting SSE
registry is exactly the old one with the id erased, so nothing is
re-registered: no automatic reconnection), and delivers nothing; the
connection does not remain registered after its transport terminates. -/
theorem sse_error_after_open_closes_and_removes
    (parse : String → Option Json) (st : ServiceState) (id : String) (now : Nat)
    (c : SseConnection)
    (_hreg : lookupConn st.activeSseConnections id = some c) :
    (handleSseEvent parse st id now SseEvent.errorEvt).closedTransport = true ∧
    lookupConn
        (handleSseEvent parse st id now SseEvent.errorEvt).state.activeSseConnections id
      = none ∧
    (handleSseEvent parse st id now SseEvent.errorEvt).state.activeSseConnections
      = eraseConn st.activeSseConnections id ∧
    (handleSseEvent parse st id now SseEvent.errorEvt).state.activeStdioConnections
      = st.activeStdioConnections ∧
    (handleSseEvent parse st id now SseEvent.errorEvt).delivered = none := by
  refine ⟨rfl, ?_, rfl, rfl, rfl⟩
  exact lookupConn_eraseConn_self _ _

/-- Witness for C5 on a concrete established connection. -/
theorem sse_error_after_open_closes_and_removes_check :
    (handleSseEvent (fun _ => none)
        { activeSseConnections :=
            [("test-uuid-value", { baseUrl := "http://x/sse", lastActivityTimestamp := 7 })]
          activeStdioConnections := [] } "test-uuid-value" 9
        SseEvent.errorEvt).closedTransport = true ∧
    lookupConn (handleSseEvent (fun _ => none)
        { activeSseConnections :=
            [("test-uuid-value", { baseUrl := "http://x/sse", lastActivityTimestamp := 7 })]
          activeStdioConnections := [] } "test-uuid-value" 9
        SseEvent.errorEvt).state.activeSseConnections "test-uuid-value" = none ∧
    (handleSseEvent (fun _ => none)
        { activeSseConnections :=
            [("test-uuid-value", { baseUrl := "http://x/sse", lastActivityTimestamp := 7 })]
          activeStdioConnections := [] } "test-uuid-value" 9
        SseEvent.errorEvt).state.activeSseConnections
      = eraseConn
          [("test-uuid-value", { baseUrl := "http://x/sse", lastActivityTimestamp := 7 })]
          "test-uuid-value" ∧
    (handleSseEvent (fun _ => none)
        { activeSseConnections :=
            [("test-uuid-value", { baseUrl := "http://x/sse", lastActivityTimestamp := 7 })]
          activeStdioConnections := [] } "test-uuid-value" 9
        SseEvent.errorEvt).state.activeStdioConnections = [] ∧
    (handleSseEvent (fun _ => none)
        { activeSseConnections :=
            [("test-uuid-value", { baseUrl := "http://x/sse", lastActivityTimestamp := 7 })]
          activeStdioConnections := [] } "test-uuid-value" 9
        SseEvent.errorEvt).delivered = none :=
  sse_error_after_open_closes_and_removes (fun _ => none)
    { activeSseConnections :=
        [("test-uuid-value", { baseUrl := "http://x/sse", lastActivityTimestamp := 7 })]
      activeStdioConnections := [] } "test-uuid-value" 9
    { baseUrl := "http://x/sse", lastActivityTimestamp := 7 } (by decide)

/-- Claim C6: an inbound SSE message is delivered parsed when it parses,
raw when it does not; something is always delivered (never dropped), a
parse failure closes nothing, and the connection stays registered (with its
activity timestamp refreshed to the delivery instant). -/
theorem sse_message_delivery_never_dropped
    (parse : String → Option Json) (st : ServiceState) (id : String) (now : Nat)
    (data : String) (c : SseConnection)
    (hreg : lookupConn st.activeSseConnections id = some c) :
    (∀ j, parse data = some j →
      (handleSseEvent parse st id now (SseEvent.message data)).delivered
        = some (Delivery.parsed j)) ∧
    (parse data = none →
      (handleSseEvent parse st id now (SseEvent.message data)).delivered
        = some (Delivery.raw data)) ∧
    (handleSseEvent parse st id now (SseEvent.message data)).delivered ≠ none ∧
    (handleSseEvent parse st id now (SseEvent.message data)).closedTransport = false ∧
    lookupConn (handleSseEvent parse st id now
        (SseEvent.message data)).state.activeSseConnections id
      = some { c with lastActivityTimestamp := now } := by
  refine ⟨?_, ?_, ?_, rfl, ?_⟩
  · intro j hj
    simp [handleSseEvent, hj]
  · intro hj
    simp [handleSseEvent, hj]
  · cases hp : parse data <;> simp [handleSseEvent, hp]
  · show lookupConn (touchConn st.activeSseConnections id now) id = _
    rw [lookupConn_touchConn, hreg]
    rfl

/-- Witness for C6: a parsed delivery and a raw delivery on the same
concrete connection under a parse function succeeding only on `"{}"`. -/
theorem sse_message_delivery_never_dropped_check :
    ((∀ j, (fun s => if s = "{}" then some (Json.obj []) else none) "{}" = some j →
      (handleSseEvent (fun s => if s = "{}" then some (Json.obj []) else none)
          { activeSseConnections :=
              [("test-uuid-value",
                { baseUrl := "http://x/sse", lastActivityTimestamp := 3 })]
            activeStdioConnections := [] } "test-uuid-value" 4
          (SseEvent.message "{}")).delivered = some (Delivery.parsed j)) ∧
    ((fun s => if s = "{}" then some (Json.obj []) else none) "{}" = none →
      (handleSseEvent (fun s => if s = "{}" then some (Json.obj []) else none)
          { activeSseConnections :=
              [("test-uuid-value",
                { baseUrl := "http://x/sse", lastActivityTimestamp := 3 })]
            activeStdioConnections := [] } "test-uuid-value" 4
          (SseEvent.message "{}")).delivered = some (Delivery.raw "{}")) ∧
    (handleSseEvent (fun s => if s = "{}" then some (Json.obj []) else none)
        { activeSseConnections :=
            [("test-uuid-value",
              { baseUrl := "http://x/sse", lastActivityTimestamp := 3 })]
          activeStdioConnections := [] } "test-uuid-value" 4
        (SseEvent.message "{}")).delivered ≠ none ∧
    (handleSseEvent (fun s => if s = "{}" then some (Json.obj []) else none)
        { activeSseConnections :=
            [("test-uuid-value",
              { baseUrl := "http://x/sse", lastActivityTimestamp := 3 })]
          activeStdioConnections := [] } "test-uuid-value" 4
        (SseEvent.message "{}")).closedTransport = false ∧
    lookupConn (handleSseEvent (fun s => if s = "{}" then some (Json.obj []) else none)
        { activeSseConnections :=
            [("test-uuid-value",
              { baseUrl := "http://x/sse", lastActivityTimestamp := 3 })]
          activeStdioConnections := [] } "test-uuid-value" 4
        (SseEvent.message "{}")).state.activeSseConnections "test-uuid-value"
      = some { baseUrl := "http://x/sse", lastActivityTimestamp := 4 }) :=
  sse_message_delivery_never_dropped
    (fun s => if s = "{}" then some (Json.obj []) else none)
    { activeSseConnections :=
        [("test-uuid-value", { baseUrl := "http://x/sse", lastActivityTimestamp := 3 })]
      activeStdioConnections := [] } "test-uuid-value" 4 "{}"
    { baseUrl := "http://x/sse", lastActivityTimestamp := 3 } (by decide)

/-- Claim C7 counterexample: the activity timestamp is written from the
clock, not strictly advanced — delivering a message while the clock still
reads the previously stored instant (1000) leaves the stored timestamp
equal to, not strictly greater than, the value stored before delivery. -/
theorem sse_timestamp_same_clock_not_advanced :
    (handleSseEvent (fun _ => none)
        { activeSseConnections :=
            [("test-uuid-value",
              { baseUrl := "http://x/sse", lastActivityTimestamp := 1000 })]
          activeStdioConnections := [] } "test-uuid-value" 1000
        (SseEvent.message "hello")).state.activeSseConnections
      = [("test-uuid-value", { baseUrl := "http://x/sse", lastActivityTimestamp := 1000 })] ∧
    ¬ ((1000 : Nat) < 1000) := by
  exact ⟨by decide, by decide⟩

/-- Claim C7 as amended: the activity timestamp is set to the current clock
value at establishment, overwritten with the current clock value on each
inbound message delivery, and overwritten with the current clock value on
each outbound call issuance (for either transport kind); across an update
it is therefore strictly greater than the previously stored value exactly
when the clock has advanced since that value was stored. -/
theorem sse_timestamp_set_to_clock
    (parse : String → Option Json) (st : ServiceState) (id : String)
    (now : Nat) (data : String) (c : SseConnection)
    (hreg : lookupConn st.activeSseConnections id = some c) :
    lookupConn (handleSseEvent parse st id now
        (SseEvent.message data)).state.activeSseConnections id
      = some { c with lastActivityTimestamp := now } ∧
    (c.lastActivityTimestamp < now →
      ∀ c', lookupConn (handleSseEvent parse st id now
          (SseEvent.message data)).state.activeSseConnections id = some c' →
        c.lastActivityTimestamp < c'.lastActivityTimestamp) ∧
    (∀ st2 url fid ev, firstSseSignal ev = some true →
      lookupConn (connectSse st2 url fid now ev).state.activeSseConnections fid
        = some { baseUrl := url, lastActivityTimestamp := now }) ∧
    lookupConn (callTool st id now).state.activeSseConnections id
      = some { c with lastActivityTimestamp := now } ∧
    (∀ st2 id2 d now2, lookupConn st2.activeSseConnections id2 = none →
      lookupConn st2.activeStdioConnections id2 = some d →
      lookupConn (callTool st2 id2 now2).state.activeStdioConnections id2
        = some { d with lastActivityTimestamp := now2 }) := by
  have hset : lookupConn (handleSseEvent parse st id now
      (SseEvent.message data)).state.activeSseConnections id
      = some { c with lastActivityTimestamp := now } := by
    show lookupConn (touchConn st.activeSseConnections id now) id = _
    rw [lookupConn_touchConn, hreg]
    rfl
  refine ⟨hset, ?_, ?_, ?_, ?_⟩
  · intro hadv c' hc'
    rw [hset] at hc'
    cases Option.some.inj hc'
    exact hadv
  · intro st2 url fid ev hopen
    simp [connectSse, hopen, lookupConn]
  · have hc : callTool st id now =
        { outcome := Except.ok Json.null
          transportCalls := 1
          state := { st with
            activeSseConnections := touchConn st.activeSseConnections id now } } := by
      simp [callTool, hreg]
    rw [hc]
    show lookupConn (touchConn st.activeSseConnections id now) id = _
    rw [lookupConn_touchConn, hreg]
    rfl
  · intro st2 id2 d now2 hnone hstdio
    have hc : callTool st2 id2 now2 =
        { outcome := Except.ok Json.null
          transportCalls := 1
          state := { st2 with
            activeStdioConnections :=
              touchStdioConn st2.activeStdioConnections id2 now2 } } := by
      simp [callTool, hnone, hstdio]
    rw [hc]
    show lookupConn (touchStdioConn st2.activeStdioConnections id2 now2) id2 = _
    rw [lookupConn_touchStdioConn, hstdio]
    rfl

/-- Witness for amended C7: delivering at clock 2000 over a timestamp of
1000 stores 2000 and strictly advances; connecting at clock 2000 stores
2000; issuing an outbound call at clock 2000 stores 2000. -/
theorem sse_timestamp_set_to_clock_check :
    (lookupConn (handleSseEvent (fun _ => none)
        { activeSseConnections :=
            [("test-uuid-value",
              { baseUrl := "http://x/sse", lastActivityTimestamp := 1000 })]
          activeStdioConnections := [] } "test-uuid-value" 2000
        (SseEvent.message "hello")).state.activeSseConnections "test-uuid-value"
      = some { baseUrl := "http://x/sse", lastActivityTimestamp := 2000 } ∧
    ((1000 : Nat) < 2000 →
      ∀ c', lookupConn (handleSseEvent (fun _ => none)
          { activeSseConnections :=
              [("test-uuid-value",
                { baseUrl := "http://x/sse", lastActivityTimestamp := 1000 })]
            activeStdioConnections := [] } "test-uuid-value" 2000
          (SseEvent.message "hello")).state.activeSseConnections "test-uuid-value"
        = some c' → (1000 : Nat) < c'.lastActivityTimestamp) ∧
    (∀ st2 url fid ev, firstSseSignal ev = some true →
      lookupConn (connectSse st2 url fid 2000 ev).state.activeSseConnections fid
        = some { baseUrl := url, lastActivityTimestamp := 2000 }) ∧
    lookupConn (callTool
        { activeSseConnections :=
            [("test-uuid-value",
              { baseUrl := "http://x/sse", lastActivityTimestamp := 1000 })]
          activeStdioConnections := [] } "test-uuid-value"
        2000).state.activeSseConnections "test-uuid-value"
      = some { baseUrl := "http://x/sse", lastActivityTimestamp := 2000 } ∧
    (∀ st2 id2 d now2, lookupConn st2.activeSseConnections id2 = none →
      lookupConn st2.activeStdioConnections id2 = some d →
      lookupConn (callTool st2 id2 now2).state.activeStdioConnections id2
        = some { d with lastActivityTimestamp := now2 })) :=
  sse_timestamp_set_to_clock (fun _ => none)
    { activeSseConnections :=
        [("test-uuid-value", { baseUrl := "http://x/sse", lastActivityTimestamp := 1000 })]
      activeStdioConnections := [] } "test-uuid-value" 2000 "hello"
    { baseUrl := "http://x/sse", lastActivityTimestamp := 1000 } (by decide)

/-- Claim C8: two back-to-back calls registered under distinct request ids,
whose responses arrive in reverse order of issuance, each resolve to the
payload whose correlation id matches their own request id — matching is by
id, not FIFO position. -/
theorem stdio_responses_matched_by_id {β : Type} (r1 r2 : Nat) (p1 p2 : β)
    (h : r1 ≠ r2) :
    lookupConn (processFrames (registerPending (registerPending [] r1) r2)
        [DecodedFrame.response r2 p2, DecodedFrame.response r1 p1]) r1
      = some (some p1) ∧
    lookupConn (processFrames (registerPending (registerPending [] r1) r2)
        [DecodedFrame.response r2 p2, DecodedFrame.response r1 p1]) r2
      = some (some p2) := by
  have hstep : processFrames (registerPending (registerPending [] r1) r2)
      [DecodedFrame.response r2 p2, DecodedFrame.response r1 p1]
      = [(r2, some p2), (r1, some p1)] := by
    simp [processFrames, registerPending, routeFrame, fulfillPending, h,
      List.foldl]
  rw [hstep]
  constructor
  · rw [lookupConn, if_neg (fun hh => h hh.symm), lookupConn, if_pos rfl]
  · rw [lookupConn, if_pos rfl]

/-- Witness for C8 with request ids 1 and 2 and payloads 10 and 20. -/
theorem stdio_responses_matched_by_id_check :
    lookupConn (processFrames (registerPending (registerPending [] 1) 2)
        [DecodedFrame.response 2 (20 : Nat), DecodedFrame.response 1 (10 : Nat)]) 1
      = some (some 10) ∧
    lookupConn (processFrames (registerPending (registerPending [] 1) 2)
        [DecodedFrame.response 2 (20 : Nat), DecodedFrame.response 1 (10 : Nat)]) 2
      = some (some 20) :=
  stdio_responses_matched_by_id 1 2 10 20 (by decide)

/-- Claim C9: `callTool` on an unregistered connection id fails with the
not-found error naming the id and issues no transport call, and the tool
layer's error mapping surfaces precisely that failure as an
invalid-parameter (`InvalidParams`) error naming the connection id. -/
theorem callTool_unknown_id_fails_without_transport_call
    (st : ServiceState) (connectionId toolName : String) (now : Nat)
    (h1 : lookupConn st.activeSseConnections connectionId = none)
    (h2 : lookupConn st.activeStdioConnections connectionId = none) :
    (callTool st connectionId now).outcome =
      Except.error
        (ServiceFailure.plain ("No connection found for ID: " ++ connectionId)) ∧
    (callTool st connectionId now).transportCalls = 0 ∧
    mapCallToolError toolName connectionId
        (ServiceFailure.plain ("No connection found for ID: " ++ connectionId))
      = { code := ErrorCode.invalidParams
          message := "Invalid connection ID: " ++ connectionId } := by
  refine ⟨?_, ?_, ?_⟩
  · simp [callTool, h1, h2]
  · simp [callTool, h1, h2]
  · simp [mapCallToolError, stringIncludes_noConnectionFound]

/-- Witness for C9 on the empty registry. -/
theorem callTool_unknown_id_fails_without_transport_call_check :
    (callTool { activeSseConnections := [], activeStdioConnections := [] }
        "non-existent-server" 0).outcome =
      Except.error
        (ServiceFailure.plain ("No connection found for ID: " ++ "non-existent-server")) ∧
    (callTool { activeSseConnections := [], activeStdioConnections := [] }
        "non-existent-server" 0).transportCalls = 0 ∧
    mapCallToolError "someTool" "non-existent-server"
        (ServiceFailure.plain ("No connection found for ID: " ++ "non-existent-server"))
      = { code := ErrorCode.invalidParams
          message := "Invalid connection ID: " ++ "non-existent-server" } :=
  callTool_unknown_id_fails_without_transport_call
    { activeSseConnections := [], activeStdioConnections := [] }
    "non-existent-server" "someTool" 0 (by decide) (by decide)

end McpBridge
